import Mathlib

/-!
Verification development for the MCP code validator
(`backend/app/services/ast_validator.py` together with the response schemas in
`backend/app/models/schemas.py`).

The analyzer is a pure function of a source unit and an optional level tag.
The Python parser (`ast.parse`) is external library code, so a source unit is
modelled as the raw text together with the parse outcome (a tree or a syntax
error); every theorem quantifies over both.  All traversals mirror `ast.walk`
(breadth-first, children in AST field order).  The imperative appends of the
source are linearized: each pass is one state update whose list fields grow by
the diagnostics the pass appends, in append order.  Details that no checked
property depends on are noted at the definition that simplifies them.
-/

namespace Inspector

/-! ## String utilities

Python substring tests (`pat in code`) are modelled on character lists. -/

/-- Tests whether the first list is a prefix of the second. -/
def charsPre : List Char → List Char → Bool
  | [], _ => true
  | _ :: _, [] => false
  | a :: as, b :: bs => a == b && charsPre as bs

/-- Tests whether `pat` occurs as a contiguous substring. -/
def charsSub (pat : List Char) : List Char → Bool
  | [] => charsPre pat []
  | c :: rest => charsPre pat (c :: rest) || charsSub pat rest

/-- Python `pat in code` (substring containment); `strContains code pat`. -/
def strContains (code pat : String) : Bool :=
  charsSub pat.data code.data

/-- A single-quote character, used to build message strings. -/
def sq : String := (Char.ofNat 39).toString

/-- Wraps a string in single quotes, as the Python f-strings do. -/
def quo (s : String) : String := sq ++ s ++ sq

/-! ## URI template scanning

The regex scan of `MCPValidator._validate_resource`: leftmost
non-overlapping matches of an open brace, one or more word characters, and a
close brace, returning the captured words.  Word characters are modelled as
ASCII alphanumerics plus underscore (the names the service inspects are
Python identifiers, which match this). -/

/-- Word character class (ASCII approximation of the regex word class). -/
def isWordChar (c : Char) : Bool := c.isAlphanum || c == '_'

/-- Fuelled scanner for the template-parameter regex; fuel bounds the number
of characters still to be examined, so `length` fuel is always enough. -/
def ftpF : Nat → List Char → List String
  | 0, _ => []
  | _ + 1, [] => []
  | f + 1, c :: rest =>
    if c == Char.ofNat 123 then
      match rest.takeWhile isWordChar, rest.dropWhile isWordChar with
      | _ :: _, close :: r3 =>
        if close == Char.ofNat 125 then
          String.mk (rest.takeWhile isWordChar) :: ftpF f r3
        else ftpF f rest
      | _, _ => ftpF f rest
    else ftpF f rest

/-- All brace-delimited template parameter names of a URI, in order, one per
occurrence (`findall` semantics). -/
def findTemplateParams (cs : List Char) : List String := ftpF cs.length cs

/-! ## Data model (`backend/app/models/schemas.py`)

`ValidationError` and `ValidationResponse` are pydantic models.  A pydantic
model accepts arbitrary keyword arguments but, with the default
configuration, silently ignores every keyword that is not a declared field;
only declared fields exist on the object and are serialized. -/

/-- Diagnostic record (`schemas.ValidationError`): type tag, optional line,
message. -/
structure ValidationError where
  type : String
  line : Option Nat
  message : String
deriving DecidableEq, Repr

/-- The response model as declared in `schemas.ValidationResponse`
(lines 34-50): exactly the fields `valid`, `errors`, `tools_found`,
`resources_found`, `prompts_found`.  No `warnings`, `has_async`,
`has_caching` or `has_security` field is declared, so those keyword
arguments of `MCPValidator._build_response` are dropped by pydantic. -/
structure ValidationResponse where
  valid : Bool
  errors : List ValidationError
  tools_found : List String
  resources_found : List String
  prompts_found : List String
deriving DecidableEq, Repr

/-- Field names of `schemas.ValidationResponse`, in declaration order; these
are the keys of the serialized verdict object. -/
def validationResponseFields : List String :=
  ["valid", "errors", "tools_found", "resources_found", "prompts_found"]

/-- Keyword-argument names passed by `MCPValidator._build_response`
(ast_validator.py lines 451-463) when constructing the response. -/
def buildResponseKwargNames : List String :=
  ["valid", "errors", "warnings", "tools_found", "resources_found",
   "prompts_found", "has_async", "has_caching", "has_security"]

/-! ## Python AST fragment

Only the node kinds the validator inspects are distinguished; every other
statement or expression kind is `other` with its child list (the validator
only ever recurses through such nodes).  Simplifications that no checked
property depends on: import aliases are carried as plain name strings (alias
nodes have no children); function parameters are the positional parameter
names (`node.args.args`), and default and annotation expressions are not
carried; `tryStmt` carries all contained statements in one list;
`constOther` stands for any non-string literal. -/

inductive Py where
  | module (body : List Py)
  | importFrom (mod : Option String) (names : List String)
  | imp (names : List String)
  | assign (targets : List Py) (value : Py)
  | functionDef (name : String) (params : List String)
      (decorators : List Py) (body : List Py) (lineno : Nat)
  | asyncFunctionDef (name : String) (params : List String)
      (decorators : List Py) (body : List Py) (lineno : Nat)
  | name (id : String)
  | attribute (value : Py) (attr : String)
  | call (func : Py) (args : List Py)
  | constStr (s : String)
  | constOther
  | tryStmt (body : List Py)
  | exprStmt (value : Py)
  | other (children : List Py)

/-- Child nodes in AST field order (`iter_child_nodes`); for function
definitions the body precedes the decorator list, as in CPython. -/
def children : Py → List Py
  | .module body => body
  | .importFrom _ _ => []
  | .imp _ => []
  | .assign targets value => targets ++ [value]
  | .functionDef _ _ decorators body _ => body ++ decorators
  | .asyncFunctionDef _ _ decorators body _ => body ++ decorators
  | .name _ => []
  | .attribute value _ => [value]
  | .call func args => func :: args
  | .constStr _ => []
  | .constOther => []
  | .tryStmt body => body
  | .exprStmt value => [value]
  | .other cs => cs

mutual

/-- Number of nodes of a tree. -/
def cnt : Py → Nat
  | .module body => 1 + cntL body
  | .importFrom _ _ => 1
  | .imp _ => 1
  | .assign targets value => 1 + cntL targets + cnt value
  | .functionDef _ _ decorators body _ => 1 + cntL decorators + cntL body
  | .asyncFunctionDef _ _ decorators body _ => 1 + cntL decorators + cntL body
  | .name _ => 1
  | .attribute value _ => 1 + cnt value
  | .call func args => 1 + cnt func + cntL args
  | .constStr _ => 1
  | .constOther => 1
  | .tryStmt body => 1 + cntL body
  | .exprStmt value => 1 + cnt value
  | .other cs => 1 + cntL cs

/-- Total number of nodes of a list of trees. -/
def cntL : List Py → Nat
  | [] => 0
  | x :: xs => cnt x + cntL xs

end

/-- Breadth-first traversal worker with fuel: pops the head node, emits it
and enqueues its children, exactly as `ast.walk` does with its deque. -/
def walkF : Nat → List Py → List Py
  | 0, _ => []
  | _ + 1, [] => []
  | f + 1, n :: q => n :: walkF f (q ++ children n)

/-- `ast.walk`: breadth-first traversal of all nodes.  Each step consumes
one node and one unit of fuel and enqueues the children of that node, so the
total node count is exactly enough fuel (`cnt_children_succ` and
`walkF_complete` below make this precise). -/
def walk (t : Py) : List Py := walkF (cnt t) [t]

/-! ## Validator state and inputs -/

/-- Outcome of a failed parse: the reported line (optional in CPython) and
message of the `SyntaxError`. -/
structure SyntaxErr where
  lineno : Option Nat
  msg : String
deriving DecidableEq, Repr

/-- A source unit: the submitted text together with the result of parsing it
with the external parser (`ast.parse`). -/
structure SourceUnit where
  text : String
  parsed : Except SyntaxErr Py

/-- The mutable fields of `MCPValidator`, reset at the start of every
`validate` call (ast_validator.py lines 35-55 and 68-81). -/
structure VState where
  level : Option String
  errors : List ValidationError
  warnings : List ValidationError
  tools_found : List String
  resources_found : List String
  prompts_found : List String
  has_fastmcp_import : Bool
  has_mcp_instance : Bool
  has_httpx_import : Bool
  has_async_client : Bool
  has_caching : Bool
  has_path_validation : Bool
  mcp_var_name : Option String
deriving DecidableEq, Repr

/-- Freshly reset validator state. -/
def initState (level : Option String) : VState :=
  { level := level, errors := [], warnings := [], tools_found := [],
    resources_found := [], prompts_found := [], has_fastmcp_import := false,
    has_mcp_instance := false, has_httpx_import := false,
    has_async_client := false, has_caching := false,
    has_path_validation := false, mcp_var_name := none }

/-! ## Diagnostics (exact type tags and messages of the source) -/

/-- Diagnostic of a parse failure (ast_validator.py lines 87-91). -/
def parseFailDiag (ln : Option Nat) (m : String) : ValidationError :=
  ⟨"syntax_error", ln,
    "Your spell contains forbidden runes! Syntax error: " ++ m⟩

/-- Missing fastmcp import (lines 102-107). -/
def missingImportError : ValidationError :=
  ⟨"missing_import", some 1,
    "Your Decklist lacks the essential fastmcp import! Add: from fastmcp import FastMCP"⟩

/-- Import present but no constructor-call assignment seen (lines 110-115). -/
def missingInstanceError : ValidationError :=
  ⟨"missing_instance", some 1,
    "You" ++ sq ++ "ve imported the Library but haven" ++ sq ++
      "t instantiated it! Add: mcp = FastMCP(" ++ quo ("your-server-name") ++ ")"⟩

/-- Instance present but no tool or resource declared (lines 118-123). -/
def emptyDeckError : ValidationError :=
  ⟨"empty_deck", some 1,
    "Your Deck is empty, Planeswalker! Add at least one Sorcery (@mcp.tool) or Permanent (@mcp.resource)."⟩

/-- Tool without a docstring (lines 200-205). -/
def missingDocstringError (nm : String) (ln : Nat) : ValidationError :=
  ⟨"missing_docstring", some ln,
    "Your Sorcery " ++ quo nm ++
      " lacks Oracle Text! Add a docstring to help the Planeswalker understand its purpose."⟩

/-- Tool docstring shorter than 10 characters (lines 207-212). -/
def shortDocstringError (nm : String) (ln : Nat) : ValidationError :=
  ⟨"short_docstring", some ln,
    "The Oracle Text for " ++ quo nm ++
      " is too brief! Provide more detail about what this Sorcery does."⟩

/-- Synchronous tool using HTTP verb attributes, level 3+ (lines 221-226). -/
def syncHttpCallWarning (nm : String) (ln : Nat) : ValidationError :=
  ⟨"sync_http_call", some ln,
    "Your Sorcery " ++ quo nm ++ " uses HTTP calls but is not async! Consider using " ++
      quo ("async def") ++ " for non-blocking I/O."⟩

/-- Resource URI literal without a scheme separator (lines 241-246). -/
def invalidResourceUriError (nm : String) (ln : Nat) : ValidationError :=
  ⟨"invalid_resource_uri", some ln,
    "Your Permanent " ++ quo nm ++
      " has an invalid URI! URIs must follow protocol://path format."⟩

/-- URI template parameter without matching function parameter
(lines 254-259). -/
def uriParamMismatchError (p nm : String) (ln : Nat) : ValidationError :=
  ⟨"uri_param_mismatch", some ln,
    "URI template parameter " ++ quo ("\x7b" ++ p ++ "\x7d") ++
      " has no matching function parameter in " ++ quo nm ++ "."⟩

/-- Resource marker without any positional argument (lines 261-266). -/
def missingResourceUriError (nm : String) (ln : Nat) : ValidationError :=
  ⟨"missing_resource_uri", some ln,
    "Your Permanent " ++ quo nm ++ " needs a URI! Add a URI like @mcp.resource(" ++
      quo ("file://path/to/resource") ++ ")"⟩

/-- Resource without a docstring, warning only (lines 270-276). -/
def missingResourceDocstringWarning (nm : String) (ln : Nat) : ValidationError :=
  ⟨"missing_resource_docstring", some ln,
    "Your Permanent " ++ quo nm ++
      " lacks Oracle Text! Consider adding a docstring for discoverability."⟩

/-- No resource with a templated URI, level 2 (lines 305-311). -/
def noUriTemplateWarning : ValidationError :=
  ⟨"no_uri_template", some 1,
    "Your Archive lacks URI templates! Consider adding dynamic resources with parameters like @mcp.resource(" ++
      quo ("archive://spells/\x7bcategory\x7d") ++ ")."⟩

/-- No recognizable path-safety idiom, level 2 (lines 325-331). -/
def missingPathSecurityWarning : ValidationError :=
  ⟨"missing_path_security", some 1,
    "Your Archive lacks path security! Add validation to prevent path traversal attacks (e.g., checking for " ++
      quo ("..") ++ " in paths)."⟩

/-- No httpx import, level 3 (lines 344-349). -/
def missingHttpxError : ValidationError :=
  ⟨"missing_httpx", some 1,
    "Your Aetheric Conduit lacks httpx! Add: import httpx"⟩

/-- Tools exist but none is async, level 3 (lines 360-366). -/
def noAsyncToolsError : ValidationError :=
  ⟨"no_async_tools", some 1,
    "Your API tools should use async! Change " ++ quo ("def") ++ " to " ++
      quo ("async def") ++ " for non-blocking I/O operations."⟩

/-- No async-client idiom in text, level 3 (lines 372-378). -/
def noAsyncClientWarning : ValidationError :=
  ⟨"no_async_client", some 1,
    "Consider using httpx.AsyncClient() for async HTTP requests. Use " ++
      quo ("async with httpx.AsyncClient() as client:") ++ " pattern."⟩

/-- No caching idiom in text, level 3 (lines 384-390). -/
def noCachingWarning : ValidationError :=
  ⟨"no_caching", some 1,
    "Your Conduit lacks a Memory Stone! Consider adding caching to reduce API calls and respect rate limits."⟩

/-- No try/except anywhere in the tree, level 3 (lines 394-400). -/
def noErrorHandlingWarning : ValidationError :=
  ⟨"no_error_handling", some 1,
    "Your tools lack error handling! Wrap API calls in try/except to handle timeouts and failures gracefully."⟩

/-- No transport-configuration idiom, level 4 (lines 413-419). -/
def noTransportConfigWarning : ValidationError :=
  ⟨"no_transport_config", some 1,
    "Your server lacks transport configuration! Add support for SSE transport: mcp.run(transport=" ++
      quo ("sse") ++ ", host=" ++ quo ("0.0.0.0") ++ ", port=8080)"⟩

/-- No health-check idiom, level 4 (lines 425-431). -/
def noHealthCheckWarning : ValidationError :=
  ⟨"no_health_check", some 1,
    "Your production server lacks a health check! Add a resource like @mcp.resource(" ++
      quo ("health://status") ++ ") for monitoring."⟩

/-- Neither argparse nor environment configuration idiom, level 4
(lines 440-446). -/
def hardcodedConfigWarning : ValidationError :=
  ⟨"hardcoded_config", some 1,
    "Your server has hardcoded configuration! Use environment variables or argparse for production flexibility."⟩

/-! ## Node predicates -/

/-- Does this node establish the fastmcp import (`_check_imports`,
lines 127-142)?  A from-import of module `fastmcp` must list the `FastMCP`
alias; a plain import of `fastmcp` suffices by itself. -/
def fastmcpImportNode : Py → Bool
  | .importFrom m names => m == some ("fastmcp") && names.contains ("FastMCP")
  | .imp names => names.contains ("fastmcp")
  | _ => false

/-- Does this node establish the httpx import (`_check_imports`)?  In the
source the httpx branch is an elif after the fastmcp one, and a from-import
with truthy module name counts when the module name contains `httpx`. -/
def httpxImportNode : Py → Bool
  | .importFrom m _ =>
    !(m == some ("fastmcp")) &&
      (m == some ("httpx") ||
        (match m with
         | some s => !(s == "") && strContains s ("httpx")
         | none => false))
  | .imp names => names.contains ("httpx")
  | _ => false

/-- Is this expression a call whose callee finally names `FastMCP`
(`_check_mcp_instance`, lines 148-157)? -/
def ctorCall : Py → Bool
  | .call f _ =>
    (match f with
     | .name id => id == "FastMCP"
     | .attribute _ attr => attr == "FastMCP"
     | _ => false)
  | _ => false

/-- Is this node an assignment whose right-hand side is a constructor call
(sets `has_mcp_instance`)? -/
def ctorAssign : Py → Bool
  | .assign _ value => ctorCall value
  | _ => false

/-- The bound identifier of a qualifying constructor-call assignment whose
first target is a simple name (sets `mcp_var_name`); `none` otherwise. -/
def bindName : Py → Option String
  | .assign targets value =>
    if ctorCall value then
      match targets with
      | .name id :: _ => some id
      | _ => none
    else none
  | _ => none

/-- The resolved host binding after the traversal: the last qualifying
simple-name assignment encountered wins; `none` if there is none. -/
def mcpVarOf (tree : Py) : Option String :=
  match ((walk tree).filterMap bindName).getLast? with
  | some v => some v
  | none => none

/-- `_get_decorator_type` (lines 175-193): unwraps a decorator call, then
requires an attribute access named `tool`, `resource` or `prompt` whose
receiver is a simple name equal to the resolved binding (if truthy) or one
of the conventional names `mcp`, `server`, `app`. -/
def getDecoratorType (mv : Option String) (decorator : Py) : Option String :=
  let func := match decorator with
    | .call f _ => f
    | d => d
  match func with
  | .attribute (.name vid) attr =>
    if attr == "tool" || attr == "resource" || attr == "prompt" then
      if (match mv with | some v => !(v == "") && v == vid | none => false) then
        some attr
      else if vid == "mcp" || vid == "server" || vid == "app" then
        some attr
      else none
    else none
  | _ => none

/-- The leading string-literal expression statement of a body, if any
(`ast.get_docstring`).  The whitespace normalization CPython applies to the
text is not modelled; no checked property depends on docstring text. -/
def getDocstring : List Py → Option String
  | .exprStmt (.constStr s) :: _ => some s
  | _ => none

/-- Function definitions as seen by the declaration scan: name, positional
parameters, decorators, body, line and async flag. -/
def funcDecls : Py → Option (String × List String × List Py × List Py × Nat × Bool)
  | .functionDef nm ps ds bd ln => some (nm, ps, ds, bd, ln, false)
  | .asyncFunctionDef nm ps ds bd ln => some (nm, ps, ds, bd, ln, true)
  | _ => none

/-- Does the subtree of a function contain an attribute access named like an
HTTP verb (`_validate_tool`, lines 218-227)? -/
def hasHttpVerb (n : Py) : Bool :=
  (walk n).any fun m =>
    match m with
    | .attribute _ a =>
      a == "get" || a == "post" || a == "put" || a == "delete" || a == "request"
    | _ => false

/-- Is the effective level `level3` or `level4`? -/
def isL34 (level : Option String) : Bool :=
  level == some ("level3") || level == some ("level4")

/-- Async function definition carrying a tool marker
(`_check_level3_requirements`, lines 352-358). -/
def asyncToolNode (mv : Option String) : Py → Bool
  | .asyncFunctionDef _ _ ds _ _ =>
    ds.any fun d => getDecoratorType mv d == some ("tool")
  | _ => false

/-- A try statement (`_check_level3_requirements`, line 393). -/
def tryNode : Py → Bool
  | .tryStmt _ => true
  | _ => false

/-- Resource-marked function whose marker has a first positional literal
argument containing an open brace (`_check_level2_requirements`,
lines 294-303).  The textual form of a non-string literal never contains a
brace. -/
def templateResourceNode (mv : Option String) (n : Py) : Bool :=
  match funcDecls n with
  | some (_, _, ds, _, _, _) =>
    ds.any fun d =>
      getDecoratorType mv d == some ("resource") &&
        (match d with
         | .call _ (arg0 :: _) =>
           (match arg0 with
            | .constStr s => strContains s ("\x7b")
            | _ => false)
         | _ => false)
  | none => false

/-! ## Raw-text probe sets (the heuristic pass; exact literals of the
source) -/

/-- Path-safety probe set (`_check_level2_requirements`, lines 314-323): a
safety-oriented method name, a path-resolution call, a traversal guard (both
a dot-dot literal and a negation token anywhere in the text), or a named
safety helper. -/
def pathSecurityProbe (code : String) : Bool :=
  strContains code ("is_relative_to") || strContains code ("resolve()") ||
    (strContains code ("..") && strContains code ("not")) ||
    strContains code ("is_safe_path")

/-- Async-client probe set (`_check_level3_requirements`, line 369). -/
def asyncClientProbe (code : String) : Bool :=
  strContains code ("AsyncClient") || strContains code ("async with httpx")

/-- Caching probe set (`_check_level3_requirements`, line 381). -/
def cachingProbe (code : String) : Bool :=
  strContains code ("_cache") || strContains code ("get_cached") ||
    strContains code ("set_cached") || strContains code ("cache[") ||
    strContains code ("lru_cache")

/-- Transport-configuration probe set (`_check_level4_requirements`,
line 410). -/
def transportProbe (code : String) : Bool :=
  strContains code ("transport=") || strContains code ("\"sse\"") ||
    strContains code (sq ++ "sse" ++ sq) || strContains code ("--transport")

/-- Health-check probe set (`_check_level4_requirements`, line 422). -/
def healthProbe (code : String) : Bool :=
  strContains code ("health://") || strContains code ("health_check") ||
    strContains code ("health_status") || strContains code ("/health")

/-- Argument-parsing probe set (`_check_level4_requirements`, line 434). -/
def argparseProbe (code : String) : Bool :=
  strContains code ("argparse") || strContains code ("ArgumentParser") ||
    strContains code ("add_argument")

/-- Environment-configuration probe set (`_check_level4_requirements`,
line 437). -/
def envProbe (code : String) : Bool :=
  strContains code ("os.getenv") || strContains code ("os.environ") ||
    strContains code ("dotenv")

/-! ## Category validators (`_validate_tool`, `_validate_resource`) -/

/-- Errors of `_validate_tool` (lines 195-212): missing docstring, or
docstring shorter than 10 characters. -/
def toolErrors (nm : String) (body : List Py) (ln : Nat) : List ValidationError :=
  match getDocstring body with
  | none => [missingDocstringError nm ln]
  | some d => if d.length < 10 then [shortDocstringError nm ln] else []

/-- Warnings of `_validate_tool` (lines 214-227): under level 3 or 4, a
synchronous function whose subtree uses an HTTP verb attribute. -/
def toolWarnings (l34 : Bool) (isAsync : Bool) (node : Py) (nm : String)
    (ln : Nat) : List ValidationError :=
  if l34 && !isAsync && hasHttpVerb node then [syncHttpCallWarning nm ln] else []

/-- Errors of `_validate_resource` (lines 229-266): a marker that is not a
call with a positional argument yields `missing_resource_uri`; a literal
first argument lacking a scheme separator yields `invalid_resource_uri`; if
the literal contains both braces, each template parameter occurrence without
a matching function parameter yields one `uri_param_mismatch`.  A
non-literal first argument is skipped without any diagnostic. -/
def resourceErrors (nm : String) (params : List String) (ln : Nat)
    (decorator : Py) : List ValidationError :=
  match decorator with
  | .call _ (arg0 :: _) =>
    (match arg0 with
     | .constStr uri =>
       (if strContains uri ("://") then [] else [invalidResourceUriError nm ln]) ++
         (if strContains uri ("\x7b") && strContains uri ("\x7d") then
            (findTemplateParams uri.data).flatMap fun p =>
              if params.contains p then [] else [uriParamMismatchError p nm ln]
          else [])
     | _ => [])
  | _ => [missingResourceUriError nm ln]

/-- Warnings of `_validate_resource` (lines 268-276): a resource without a
docstring. -/
def resourceWarnings (nm : String) (body : List Py) (ln : Nat) :
    List ValidationError :=
  match getDocstring body with
  | none => [missingResourceDocstringWarning nm ln]
  | some _ => []

/-! ## Declaration scan (`_check_decorated_functions`, lines 159-173)

For every function definition in traversal order, for every decorator in
order: a tool marker records the name and runs the tool validator, a
resource marker records the name and runs the resource validator, a prompt
marker is recorded by name only. -/

/-- Tool names recorded by the scan, in discovery order. -/
def declToolsOf (mv : Option String) (tree : Py) : List String :=
  (walk tree).flatMap fun n =>
    match funcDecls n with
    | some (nm, _, ds, _, _, _) =>
      ds.flatMap fun d =>
        if getDecoratorType mv d == some ("tool") then [nm] else []
    | none => []

/-- Resource names recorded by the scan, in discovery order. -/
def declResourcesOf (mv : Option String) (tree : Py) : List String :=
  (walk tree).flatMap fun n =>
    match funcDecls n with
    | some (nm, _, ds, _, _, _) =>
      ds.flatMap fun d =>
        if getDecoratorType mv d == some ("resource") then [nm] else []
    | none => []

/-- Prompt names recorded by the scan, in discovery order. -/
def declPromptsOf (mv : Option String) (tree : Py) : List String :=
  (walk tree).flatMap fun n =>
    match funcDecls n with
    | some (nm, _, ds, _, _, _) =>
      ds.flatMap fun d =>
        if getDecoratorType mv d == some ("prompt") then [nm] else []
    | none => []

/-- Errors appended by the declaration scan, in append order. -/
def declErrors (mv : Option String) (tree : Py) : List ValidationError :=
  (walk tree).flatMap fun n =>
    match funcDecls n with
    | some (nm, ps, ds, bd, ln, _) =>
      ds.flatMap fun d =>
        match getDecoratorType mv d with
        | some t =>
          if t == "tool" then toolErrors nm bd ln
          else if t == "resource" then resourceErrors nm ps ln d
          else []
        | none => []
    | none => []

/-- Warnings appended by the declaration scan, in append order. -/
def declWarnings (mv : Option String) (l34 : Bool) (tree : Py) :
    List ValidationError :=
  (walk tree).flatMap fun n =>
    match funcDecls n with
    | some (nm, _, ds, bd, ln, ia) =>
      ds.flatMap fun d =>
        match getDecoratorType mv d with
        | some t =>
          if t == "tool" then toolWarnings l34 ia n nm ln
          else if t == "resource" then resourceWarnings nm bd ln
          else []
        | none => []
    | none => []

/-! ## Passes as state transformers -/

/-- `_check_imports` (lines 127-142): sets the two import flags. -/
def checkImports (st : VState) (tree : Py) : VState :=
  { st with
    has_fastmcp_import :=
      st.has_fastmcp_import || (walk tree).any fastmcpImportNode,
    has_httpx_import :=
      st.has_httpx_import || (walk tree).any httpxImportNode }

/-- `_check_mcp_instance` (lines 144-157): sets `has_mcp_instance` when any
constructor-call assignment exists, and `mcp_var_name` to the last
simple-name binding encountered. -/
def checkMcpInstance (st : VState) (tree : Py) : VState :=
  { st with
    has_mcp_instance := st.has_mcp_instance || (walk tree).any ctorAssign,
    mcp_var_name :=
      match ((walk tree).filterMap bindName).getLast? with
      | some v => some v
      | none => st.mcp_var_name }

/-- `_check_decorated_functions` (lines 159-173). -/
def checkDecoratedFunctions (st : VState) (tree : Py) : VState :=
  { st with
    tools_found := st.tools_found ++ declToolsOf st.mcp_var_name tree,
    resources_found :=
      st.resources_found ++ declResourcesOf st.mcp_var_name tree,
    prompts_found := st.prompts_found ++ declPromptsOf st.mcp_var_name tree,
    errors := st.errors ++ declErrors st.mcp_var_name tree,
    warnings :=
      st.warnings ++ declWarnings st.mcp_var_name (isL34 st.level) tree }

/-- Warnings appended by `_check_level2_requirements` (lines 287-333), in
append order: the template warning is emitted only when resources were found
and none has a templated URI; the security warning only when resources were
found and no path-safety probe hits. -/
def level2WarnDelta (st : VState) (tree : Py) (code : String) :
    List ValidationError :=
  (if !((walk tree).any (templateResourceNode st.mcp_var_name)) &&
      !st.resources_found.isEmpty then [noUriTemplateWarning] else []) ++
    (if !st.resources_found.isEmpty && !pathSecurityProbe code then
      [missingPathSecurityWarning] else [])

/-- `_check_level2_requirements`: the `has_path_validation` flag is set in
the else branch of the security warning, hence also when no resource
exists. -/
def checkLevel2 (st : VState) (tree : Py) (code : String) : VState :=
  { st with
    warnings := st.warnings ++ level2WarnDelta st tree code,
    has_path_validation :=
      if !st.resources_found.isEmpty && !pathSecurityProbe code then
        st.has_path_validation
      else true }

/-- Errors appended by `_check_level3_requirements` (lines 335-400):
missing httpx import, then tools present but none async. -/
def level3ErrDelta (st : VState) (tree : Py) : List ValidationError :=
  (if !st.has_httpx_import then [missingHttpxError] else []) ++
    (if !st.tools_found.isEmpty &&
        !((walk tree).any (asyncToolNode st.mcp_var_name)) then
      [noAsyncToolsError] else [])

/-- Warnings appended by `_check_level3_requirements`: no async client (only
when the httpx import was seen), no caching, no error handling. -/
def level3WarnDelta (st : VState) (tree : Py) (code : String) :
    List ValidationError :=
  (if !asyncClientProbe code && st.has_httpx_import then
    [noAsyncClientWarning] else []) ++
    (if !cachingProbe code then [noCachingWarning] else []) ++
    (if !((walk tree).any tryNode) then [noErrorHandlingWarning] else [])

/-- `_check_level3_requirements`. -/
def checkLevel3 (st : VState) (tree : Py) (code : String) : VState :=
  { st with
    errors := st.errors ++ level3ErrDelta st tree,
    warnings := st.warnings ++ level3WarnDelta st tree code,
    has_async_client :=
      if asyncClientProbe code then true else st.has_async_client,
    has_caching := if cachingProbe code then true else st.has_caching }

/-- Probe warnings of `_check_level4_requirements` (lines 402-446), in
append order. -/
def level4OwnWarnDelta (code : String) : List ValidationError :=
  (if !transportProbe code then [noTransportConfigWarning] else []) ++
    (if !healthProbe code then [noHealthCheckWarning] else []) ++
    (if !argparseProbe code && !envProbe code then [hardcodedConfigWarning]
     else [])

/-- `_check_level4_requirements`: three probe warnings, then all the level 3
checks on the updated state (line 449). -/
def checkLevel4 (st : VState) (tree : Py) (code : String) : VState :=
  checkLevel3
    { st with warnings := st.warnings ++ level4OwnWarnDelta code } tree code

/-- `_check_level_specific` (lines 278-285): dispatch on the level tag; any
other value (including none) runs nothing. -/
def checkLevelSpecific (st : VState) (tree : Py) (code : String) : VState :=
  if st.level == some ("level2") then checkLevel2 st tree code
  else if st.level == some ("level3") then checkLevel3 st tree code
  else if st.level == some ("level4") then checkLevel4 st tree code
  else st

/-- Errors appended by the base checks after the scan (lines 100-123):
missing import, then missing instance (only when the import was found), then
empty deck. -/
def baseErrDelta (st : VState) : List ValidationError :=
  (if !st.has_fastmcp_import then [missingImportError] else []) ++
    (if !st.has_mcp_instance && st.has_fastmcp_import then
      [missingInstanceError] else []) ++
    (if st.has_mcp_instance && st.tools_found.isEmpty &&
        st.resources_found.isEmpty then [emptyDeckError] else [])

/-- The base checks as a state transformer. -/
def baseChecks (st : VState) : VState :=
  { st with errors := st.errors ++ baseErrDelta st }

/-- The pass pipeline of `validate` on a successfully parsed tree
(lines 94-125). -/
def runChecks (st : VState) (tree : Py) (code : String) : VState :=
  baseChecks
    (checkLevelSpecific
      (checkDecoratedFunctions
        (checkMcpInstance (checkImports st tree) tree) tree)
      tree code)

/-- `MCPValidator.validate` (lines 57-125), as the final validator state: a
parse failure yields exactly the syntax diagnostic and returns immediately;
otherwise all passes run.  A fresh state is built per call (`validate_code`
creates a new validator per request). -/
def validateState (u : SourceUnit) (level : Option String) : VState :=
  match u.parsed with
  | .error e =>
    { initState level with errors := [parseFailDiag e.lineno e.msg] }
  | .ok tree => runChecks (initState level) tree u.text

/-- `_build_response` (lines 451-463) as filtered by the pydantic model:
only the declared fields of `schemas.ValidationResponse` are kept; the
`warnings`, `has_async`, `has_caching` and `has_security` keyword arguments
are ignored by the model (see `validationResponseFields`). -/
def buildResponse (st : VState) : ValidationResponse :=
  { valid := st.errors.length == 0,
    errors := st.errors,
    tools_found := st.tools_found,
    resources_found := st.resources_found,
    prompts_found := st.prompts_found }

/-- `validate_code` (lines 466-479): the public contract
`validate(code, level) -> Verdict`. -/
def validateCode (u : SourceUnit) (level : Option String) : ValidationResponse :=
  buildResponse (validateState u level)

/-- Type tags of all diagnostics of a state, errors then warnings. -/
def diagKinds (st : VState) : List String :=
  (st.errors ++ st.warnings).map ValidationError.type

/-- The diagnostic kinds the level 3 rule pack can produce. -/
def level3PackKinds : List String :=
  ["missing_httpx", "no_async_tools", "sync_http_call", "no_async_client",
   "no_caching", "no_error_handling"]

/-- The validator state reached after the three scans and before the
level-specific and base checks (used as a closed form by the lemmas). -/
def preState (tree : Py) (level : Option String) : VState :=
  { level := level,
    errors := declErrors (mcpVarOf tree) tree,
    warnings := declWarnings (mcpVarOf tree) (isL34 level) tree,
    tools_found := declToolsOf (mcpVarOf tree) tree,
    resources_found := declResourcesOf (mcpVarOf tree) tree,
    prompts_found := declPromptsOf (mcpVarOf tree) tree,
    has_fastmcp_import := (walk tree).any fastmcpImportNode,
    has_mcp_instance := (walk tree).any ctorAssign,
    has_httpx_import := (walk tree).any httpxImportNode,
    has_async_client := false, has_caching := false,
    has_path_validation := false,
    mcp_var_name := mcpVarOf tree }

/-- Predicate selecting the URI-related resource diagnostics. -/
def isResourceUriKind (e : ValidationError) : Bool :=
  e.type == "missing_resource_uri" || e.type == "invalid_resource_uri" ||
    e.type == "uri_param_mismatch"

/-- The three shapes of the first positional marker argument considered by
the resource rules: absent, a non-literal expression, or a string literal. -/
def resourceFamilyArgs : Option (Option String) → List Py
  | none => []
  | some none => [Py.name ("external_uri")]
  | some (some uri) => [Py.constStr uri]

/-- A module declaring a single resource-marked function (receiver `mcp`,
one docstring statement), parameterized by the marker arguments. -/
def resourceFamilyTree (fname : String) (params : List String) (doc : String)
    (ln : Nat) (dargs : List Py) : Py :=
  Py.module
    [Py.functionDef fname params
      [Py.call (Py.attribute (Py.name ("mcp")) ("resource")) dargs]
      [Py.exprStmt (Py.constStr doc)] ln]

/-! ## Concrete inputs used by witnesses and counterexamples -/

/-- The empty module: empty text parses to a module with empty body. -/
def emptyUnit : SourceUnit := ⟨"", Except.ok (Py.module [])⟩

/-- A resource-marked function whose marker has a non-literal first
positional argument: `@mcp.resource(uri_value)`. -/
def resourceNonLiteralTree : Py :=
  Py.module
    [Py.functionDef ("reader") []
      [Py.call (Py.attribute (Py.name ("mcp")) ("resource"))
        [Py.name ("uri_value")]]
      [] 2]

/-- A resource-marked function whose URI repeats the same template parameter
twice, on a function with no parameters. -/
def resourceDupParamTree : Py :=
  Py.module
    [Py.functionDef ("handler") []
      [Py.call (Py.attribute (Py.name ("mcp")) ("resource"))
        [Py.constStr ("a://\x7bx\x7d\x7bx\x7d")]]
      [] 2]

/-- Plain `import fastmcp` followed by a constructor call assigned to an
attribute target, so no simple-name binding is resolved. -/
def attrTargetTree : Py :=
  Py.module
    [Py.imp [("fastmcp")],
     Py.assign [Py.attribute (Py.name ("holder")) ("inst")]
       (Py.call (Py.name ("FastMCP")) [])]

/-- Two qualifying constructor-call assignments with simple-name targets. -/
def twoBindingsTree : Py :=
  Py.module
    [Py.assign [Py.name ("first_mcp")] (Py.call (Py.name ("FastMCP")) []),
     Py.assign [Py.name ("second_mcp")] (Py.call (Py.name ("FastMCP")) [])]

end Inspector

namespace Inspector

/-! ## Traversal sanity: the node count is exactly enough fuel -/

/-- Every tree has at least one node. -/
theorem cnt_pos (n : Py) : 1 ≤ cnt n := by
  cases n <;> simp [cnt] <;> omega

/-- Node counts add over list concatenation. -/
theorem cntL_append (a b : List Py) : cntL (a ++ b) = cntL a + cntL b := by
  induction a with
  | nil => simp [cntL]
  | cons x xs ih => simp [cntL, ih]; omega

/-- A node counts itself plus its children. -/
theorem cnt_children_succ (n : Py) : cnt n = 1 + cntL (children n) := by
  cases n <;> simp [cnt, children, cntL, cntL_append] <;> omega

/-- With at least the exact node count as fuel the fuel value is irrelevant:
the breadth-first traversal never hits the fuel cutoff, so `walk` is the
full `ast.walk` enumeration. -/
theorem walkF_complete (f : Nat) : ∀ (l : List Py), cntL l ≤ f →
    walkF f l = walkF (cntL l) l := by
  induction f with
  | zero =>
    intro l hl
    cases l with
    | nil => rfl
    | cons n q =>
      exfalso
      have := cnt_pos n
      simp [cntL] at hl
      omega
  | succ f ih =>
    intro l hl
    cases l with
    | nil => rfl
    | cons n q =>
      have hc : cntL (n :: q) = cntL (q ++ children n) + 1 := by
        simp [cntL, cntL_append, cnt_children_succ n]
        omega
      rw [hc] at hl ⊢
      have hm : cntL (q ++ children n) ≤ f := by omega
      show n :: walkF f (q ++ children n) =
        n :: walkF (cntL (q ++ children n)) (q ++ children n)
      rw [ih _ hm]

/-! ## Closed form of the pipeline -/

/-- On a successfully parsed tree, `validate` is the base checks applied
after the level dispatch applied to the scan state. -/
theorem validateState_ok_eq (text : String) (tree : Py) (level : Option String) :
    validateState ⟨text, Except.ok tree⟩ level =
      baseChecks (checkLevelSpecific (preState tree level) tree text) := rfl

/-- Level dispatch under the level2 tag. -/
theorem cls_of_level2 (st : VState) (tree : Py) (code : String)
    (h : st.level = some ("level2")) :
    checkLevelSpecific st tree code = checkLevel2 st tree code := by
  simp [checkLevelSpecific, h]

/-- Level dispatch under the level3 tag. -/
theorem cls_of_level3 (st : VState) (tree : Py) (code : String)
    (h : st.level = some ("level3")) :
    checkLevelSpecific st tree code = checkLevel3 st tree code := by
  simp [checkLevelSpecific, h]

/-- Level dispatch under the level4 tag. -/
theorem cls_of_level4 (st : VState) (tree : Py) (code : String)
    (h : st.level = some ("level4")) :
    checkLevelSpecific st tree code = checkLevel4 st tree code := by
  simp [checkLevelSpecific, h]

/-- Level dispatch under any other tag runs nothing. -/
theorem cls_of_other (st : VState) (tree : Py) (code : String)
    (h2 : st.level ≠ some ("level2")) (h3 : st.level ≠ some ("level3"))
    (h4 : st.level ≠ some ("level4")) :
    checkLevelSpecific st tree code = st := by
  simp [checkLevelSpecific, beq_eq_false_iff_ne.mpr h2,
    beq_eq_false_iff_ne.mpr h3, beq_eq_false_iff_ne.mpr h4]

/-! ## Field projections of the passes -/

/-- Base checks only append errors. -/
theorem baseChecks_errors (st : VState) :
    (baseChecks st).errors = st.errors ++ baseErrDelta st := rfl

/-- Base checks leave warnings unchanged. -/
theorem baseChecks_warnings (st : VState) :
    (baseChecks st).warnings = st.warnings := rfl

/-- Base checks leave the import flag unchanged. -/
theorem baseChecks_ff (st : VState) :
    (baseChecks st).has_fastmcp_import = st.has_fastmcp_import := rfl

/-- Base checks leave the instance flag unchanged. -/
theorem baseChecks_hmi (st : VState) :
    (baseChecks st).has_mcp_instance = st.has_mcp_instance := rfl

/-- Base checks leave the httpx flag unchanged. -/
theorem baseChecks_hh (st : VState) :
    (baseChecks st).has_httpx_import = st.has_httpx_import := rfl

/-- Base checks leave the async-client flag unchanged. -/
theorem baseChecks_hac (st : VState) :
    (baseChecks st).has_async_client = st.has_async_client := rfl

/-- Base checks leave the path-security flag unchanged. -/
theorem baseChecks_hpv (st : VState) :
    (baseChecks st).has_path_validation = st.has_path_validation := rfl

/-- Base checks leave the tool list unchanged. -/
theorem baseChecks_tools (st : VState) :
    (baseChecks st).tools_found = st.tools_found := rfl

/-- Base checks leave the resource list unchanged. -/
theorem baseChecks_resources (st : VState) :
    (baseChecks st).resources_found = st.resources_found := rfl

/-- Base checks leave the host binding unchanged. -/
theorem baseChecks_mcp (st : VState) :
    (baseChecks st).mcp_var_name = st.mcp_var_name := rfl

/-- The scan state projections used by the claim proofs. -/
theorem preState_warnings (tree : Py) (level : Option String) :
    (preState tree level).warnings =
      declWarnings (mcpVarOf tree) (isL34 level) tree := rfl

/-- Errors of the scan state. -/
theorem preState_errors (tree : Py) (level : Option String) :
    (preState tree level).errors = declErrors (mcpVarOf tree) tree := rfl

/-- Resources of the scan state. -/
theorem preState_resources (tree : Py) (level : Option String) :
    (preState tree level).resources_found =
      declResourcesOf (mcpVarOf tree) tree := rfl

/-- Httpx flag of the scan state. -/
theorem preState_hh (tree : Py) (level : Option String) :
    (preState tree level).has_httpx_import =
      (walk tree).any httpxImportNode := rfl

/-- Warnings appended by the level2 pack. -/
theorem checkLevel2_warnings (st : VState) (tree : Py) (code : String) :
    (checkLevel2 st tree code).warnings =
      st.warnings ++ level2WarnDelta st tree code := rfl

/-- The level2 pack leaves the resource list unchanged. -/
theorem checkLevel2_resources (st : VState) (tree : Py) (code : String) :
    (checkLevel2 st tree code).resources_found = st.resources_found := rfl

/-- The path-security flag after the level2 pack. -/
theorem checkLevel2_hpv (st : VState) (tree : Py) (code : String) :
    (checkLevel2 st tree code).has_path_validation =
      if !st.resources_found.isEmpty && !pathSecurityProbe code then
        st.has_path_validation
      else true := rfl

/-- Errors appended by the level3 pack. -/
theorem checkLevel3_errors (st : VState) (tree : Py) (code : String) :
    (checkLevel3 st tree code).errors = st.errors ++ level3ErrDelta st tree := rfl

/-- Warnings appended by the level3 pack. -/
theorem checkLevel3_warnings (st : VState) (tree : Py) (code : String) :
    (checkLevel3 st tree code).warnings =
      st.warnings ++ level3WarnDelta st tree code := rfl

/-- The level3 pack leaves the httpx flag unchanged. -/
theorem checkLevel3_hh (st : VState) (tree : Py) (code : String) :
    (checkLevel3 st tree code).has_httpx_import = st.has_httpx_import := rfl

/-- The async-client flag after the level3 pack. -/
theorem checkLevel3_hac (st : VState) (tree : Py) (code : String) :
    (checkLevel3 st tree code).has_async_client =
      if asyncClientProbe code then true else st.has_async_client := rfl

/-- Errors appended by the level4 pack are exactly the level3 errors. -/
theorem checkLevel4_errors (st : VState) (tree : Py) (code : String) :
    (checkLevel4 st tree code).errors = st.errors ++ level3ErrDelta st tree := rfl

/-- Warnings appended by the level4 pack: its own probes, then the level3
warnings. -/
theorem checkLevel4_warnings (st : VState) (tree : Py) (code : String) :
    (checkLevel4 st tree code).warnings =
      st.warnings ++ level4OwnWarnDelta code ++
        level3WarnDelta st tree code := rfl

/-- The level4 pack leaves the httpx flag unchanged. -/
theorem checkLevel4_hh (st : VState) (tree : Py) (code : String) :
    (checkLevel4 st tree code).has_httpx_import = st.has_httpx_import := rfl

/-- The async-client flag after the level4 pack. -/
theorem checkLevel4_hac (st : VState) (tree : Py) (code : String) :
    (checkLevel4 st tree code).has_async_client =
      if asyncClientProbe code then true else st.has_async_client := rfl

/-- The level dispatch never changes the host binding. -/
theorem cls_mcp_var (st : VState) (tree : Py) (code : String) :
    (checkLevelSpecific st tree code).mcp_var_name = st.mcp_var_name := by
  unfold checkLevelSpecific
  split
  · rfl
  split
  · rfl
  split
  · rfl
  · rfl

/-- The level dispatch never changes the import flag. -/
theorem cls_ff (st : VState) (tree : Py) (code : String) :
    (checkLevelSpecific st tree code).has_fastmcp_import =
      st.has_fastmcp_import := by
  unfold checkLevelSpecific
  split
  · rfl
  split
  · rfl
  split
  · rfl
  · rfl

/-- The level dispatch never changes the instance flag. -/
theorem cls_hmi (st : VState) (tree : Py) (code : String) :
    (checkLevelSpecific st tree code).has_mcp_instance =
      st.has_mcp_instance := by
  unfold checkLevelSpecific
  split
  · rfl
  split
  · rfl
  split
  · rfl
  · rfl

/-- The level dispatch never changes the httpx flag. -/
theorem cls_hh (st : VState) (tree : Py) (code : String) :
    (checkLevelSpecific st tree code).has_httpx_import =
      st.has_httpx_import := by
  unfold checkLevelSpecific
  split
  · rfl
  split
  · rfl
  split
  · rfl
  · rfl

/-- The level dispatch never changes the tool list. -/
theorem cls_tools (st : VState) (tree : Py) (code : String) :
    (checkLevelSpecific st tree code).tools_found = st.tools_found := by
  unfold checkLevelSpecific
  split
  · rfl
  split
  · rfl
  split
  · rfl
  · rfl

/-- The level dispatch never changes the resource list. -/
theorem cls_resources (st : VState) (tree : Py) (code : String) :
    (checkLevelSpecific st tree code).resources_found = st.resources_found := by
  unfold checkLevelSpecific
  split
  · rfl
  split
  · rfl
  split
  · rfl
  · rfl

/-- The level dispatch never changes the level tag. -/
theorem cls_level (st : VState) (tree : Py) (code : String) :
    (checkLevelSpecific st tree code).level = st.level := by
  unfold checkLevelSpecific
  split
  · rfl
  split
  · rfl
  split
  · rfl
  · rfl

/-- Errors appended by the level dispatch: the level3 pack errors when the
effective level is level3 or level4, nothing otherwise. -/
theorem cls_errors (st : VState) (tree : Py) (code : String) :
    (checkLevelSpecific st tree code).errors =
      st.errors ++ (if isL34 st.level then level3ErrDelta st tree else []) := by
  unfold checkLevelSpecific
  split
  · rename_i h
    have hl := eq_of_beq h
    simp [checkLevel2, isL34, hl]
  split
  · rename_i h
    have hl := eq_of_beq h
    simp [checkLevel3, isL34, hl]
  split
  · rename_i h
    have hl := eq_of_beq h
    simp [checkLevel4, checkLevel3, isL34, hl, level3ErrDelta]
  · rename_i h2 h3 h4
    simp only [Bool.not_eq_true] at h3 h4
    simp [isL34, h3, h4]

/-! ## Ranges of the diagnostic kinds each pass can produce -/

/-- Tool validator errors are docstring diagnostics. -/
theorem mem_toolErrors_type {nm : String} {body : List Py} {ln : Nat}
    {e : ValidationError} (h : e ∈ toolErrors nm body ln) :
    e.type = "missing_docstring" ∨ e.type = "short_docstring" := by
  unfold toolErrors at h
  split at h
  · simp at h; subst h; left; rfl
  · split at h
    · simp at h; subst h; right; rfl
    · simp at h

/-- Resource validator errors are URI diagnostics. -/
theorem mem_resourceErrors_type {nm : String} {ps : List String} {ln : Nat}
    {d : Py} {e : ValidationError} (h : e ∈ resourceErrors nm ps ln d) :
    e.type = "invalid_resource_uri" ∨ e.type = "uri_param_mismatch" ∨
      e.type = "missing_resource_uri" := by
  unfold resourceErrors at h
  split at h
  · split at h
    · rcases List.mem_append.mp h with h | h
      · split at h
        · simp at h
        · simp at h; subst h; left; rfl
      · split at h
        · rcases List.mem_flatMap.mp h with ⟨p, _, hp⟩
          split at hp
          · simp at hp
          · simp at hp; subst hp; right; left; rfl
        · simp at h
    · simp at h
  · simp at h; subst h; right; right; rfl

/-- Declaration scan errors are docstring or URI diagnostics. -/
theorem mem_declErrors_type {mv : Option String} {tree : Py}
    {e : ValidationError} (h : e ∈ declErrors mv tree) :
    e.type = "missing_docstring" ∨ e.type = "short_docstring" ∨
      e.type = "invalid_resource_uri" ∨ e.type = "uri_param_mismatch" ∨
      e.type = "missing_resource_uri" := by
  unfold declErrors at h
  rcases List.mem_flatMap.mp h with ⟨n, _, hn⟩
  split at hn
  · rcases List.mem_flatMap.mp hn with ⟨d, _, hd⟩
    split at hd
    · split at hd
      · rcases mem_toolErrors_type hd with h1 | h1 <;> tauto
      · split at hd
        · rcases mem_resourceErrors_type hd with h1 | h1 | h1 <;> tauto
        · simp at hd
    · simp at hd
  · simp at hn

/-- Tool validator warnings are sync-call diagnostics. -/
theorem mem_toolWarnings_type {l34 ia : Bool} {node : Py} {nm : String}
    {ln : Nat} {e : ValidationError} (h : e ∈ toolWarnings l34 ia node nm ln) :
    e.type = "sync_http_call" := by
  unfold toolWarnings at h
  split at h
  · simp at h; subst h; rfl
  · simp at h

/-- Resource validator warnings are docstring diagnostics. -/
theorem mem_resourceWarnings_type {nm : String} {body : List Py} {ln : Nat}
    {e : ValidationError} (h : e ∈ resourceWarnings nm body ln) :
    e.type = "missing_resource_docstring" := by
  unfold resourceWarnings at h
  split at h
  · simp at h; subst h; rfl
  · simp at h

/-- Declaration scan warnings are sync-call or resource-docstring
diagnostics. -/
theorem mem_declWarnings_type {mv : Option String} {l34 : Bool} {tree : Py}
    {e : ValidationError} (h : e ∈ declWarnings mv l34 tree) :
    e.type = "sync_http_call" ∨ e.type = "missing_resource_docstring" := by
  unfold declWarnings at h
  rcases List.mem_flatMap.mp h with ⟨n, _, hn⟩
  split at hn
  · rcases List.mem_flatMap.mp hn with ⟨d, _, hd⟩
    split at hd
    · split at hd
      · exact Or.inl (mem_toolWarnings_type hd)
      · split at hd
        · exact Or.inr (mem_resourceWarnings_type hd)
        · simp at hd
    · simp at hd
  · simp at hn

/-- Level3 pack errors are httpx or async-tool diagnostics. -/
theorem mem_level3ErrDelta_type {st : VState} {tree : Py}
    {e : ValidationError} (h : e ∈ level3ErrDelta st tree) :
    e.type = "missing_httpx" ∨ e.type = "no_async_tools" := by
  unfold level3ErrDelta at h
  rcases List.mem_append.mp h with h | h <;> split at h <;> simp at h <;>
    subst h
  · left; rfl
  · right; rfl

/-- Level3 pack warnings are client, caching or error-handling
diagnostics. -/
theorem mem_level3WarnDelta_type {st : VState} {tree : Py} {code : String}
    {e : ValidationError} (h : e ∈ level3WarnDelta st tree code) :
    e.type = "no_async_client" ∨ e.type = "no_caching" ∨
      e.type = "no_error_handling" := by
  unfold level3WarnDelta at h
  rcases List.mem_append.mp h with h | h
  · rcases List.mem_append.mp h with h | h <;> split at h <;> simp at h <;>
      subst h
    · left; rfl
    · right; left; rfl
  · split at h <;> simp at h
    subst h; right; right; rfl

/-- The level4 pack probe warnings are transport, health or configuration
diagnostics. -/
theorem mem_level4OwnWarnDelta_type {code : String} {e : ValidationError}
    (h : e ∈ level4OwnWarnDelta code) :
    e.type = "no_transport_config" ∨ e.type = "no_health_check" ∨
      e.type = "hardcoded_config" := by
  unfold level4OwnWarnDelta at h
  rcases List.mem_append.mp h with h | h
  · rcases List.mem_append.mp h with h | h <;> split at h <;> simp at h <;>
      subst h
    · left; rfl
    · right; left; rfl
  · split at h <;> simp at h
    subst h; right; right; rfl

/-- Level2 pack warnings are template or path-security diagnostics. -/
theorem mem_level2WarnDelta_type {st : VState} {tree : Py} {code : String}
    {e : ValidationError} (h : e ∈ level2WarnDelta st tree code) :
    e.type = "no_uri_template" ∨ e.type = "missing_path_security" := by
  unfold level2WarnDelta at h
  rcases List.mem_append.mp h with h | h <;> split at h <;> simp at h <;>
    subst h
  · left; rfl
  · right; rfl

/-- The missing-instance diagnostic occurs among the base-check errors
exactly when the import flag is set and the instance flag is not. -/
theorem mem_map_missing_instance_baseErrDelta (st : VState) :
    ("missing_instance" ∈ (baseErrDelta st).map ValidationError.type) ↔
      (st.has_fastmcp_import = true ∧ st.has_mcp_instance = false) := by
  unfold baseErrDelta
  cases h1 : st.has_fastmcp_import <;> cases h2 : st.has_mcp_instance <;>
    simp [h1, h2, missingImportError, missingInstanceError, emptyDeckError] <;>
    (intro x _ _ hx; subst hx; simp)

/-- The path-security warning occurs in the level2 pack exactly when
resources were found and no probe idiom hits. -/
theorem mem_map_mps_level2WarnDelta (st : VState) (tree : Py) (code : String) :
    ("missing_path_security" ∈
        (level2WarnDelta st tree code).map ValidationError.type) ↔
      (st.resources_found ≠ [] ∧ pathSecurityProbe code = false) := by
  unfold level2WarnDelta
  cases ht : (walk tree).any (templateResourceNode st.mcp_var_name) <;>
    cases hr : st.resources_found <;>
    cases hp : pathSecurityProbe code <;>
    simp [ht, hp, noUriTemplateWarning, missingPathSecurityWarning]

/-- The async-client warning occurs in the level3 pack exactly when no
async-client idiom hits and the httpx import was seen. -/
theorem mem_map_nac_level3WarnDelta (st : VState) (tree : Py) (code : String) :
    ("no_async_client" ∈
        (level3WarnDelta st tree code).map ValidationError.type) ↔
      (asyncClientProbe code = false ∧ st.has_httpx_import = true) := by
  unfold level3WarnDelta
  cases ha : asyncClientProbe code <;> cases hh : st.has_httpx_import <;>
    cases hc : cachingProbe code <;> cases htr : (walk tree).any tryNode <;>
    simp [ha, hh, hc, htr, noAsyncClientWarning, noCachingWarning,
      noErrorHandlingWarning]

/-- Starting from an unset path-security flag, the level2 pack sets it
exactly when a probe idiom hits or no resource was found. -/
theorem checkLevel2_hpv_iff (st : VState) (tree : Py) (code : String)
    (h : st.has_path_validation = false) :
    ((checkLevel2 st tree code).has_path_validation = true ↔
      (pathSecurityProbe code = true ∨ st.resources_found = [])) := by
  rw [checkLevel2_hpv, h]
  cases hr : st.resources_found <;> cases hp : pathSecurityProbe code <;>
    simp [hp]

end Inspector

namespace Inspector

/-! ## The checked properties -/

/-- C1: for every input and every level, the verdict returned by validate
satisfies valid equal to emptiness of the errors list, and diagnostics
appended to the warnings list never change the response, hence never change
valid. -/
theorem c1_valid_iff_no_errors (u : SourceUnit) (level : Option String) :
    ((validateCode u level).valid = true ↔ (validateCode u level).errors = []) ∧
    (∀ (st : VState) (w : List ValidationError),
      buildResponse { st with warnings := w } = buildResponse st) := by
  constructor
  · simp [validateCode, buildResponse]
  · intro st w; rfl

/-- C2: the schema declared in `schemas.ValidationResponse` lacks the
`warnings`, `has_async`, `has_caching` and `has_security` fields although
`_build_response` passes them as keyword arguments, so the serialized
verdict does not contain all nine claimed fields. -/
theorem c2_response_fields_gap :
    ("warnings" ∈ buildResponseKwargNames ∧
      "has_async" ∈ buildResponseKwargNames ∧
      "has_caching" ∈ buildResponseKwargNames ∧
      "has_security" ∈ buildResponseKwargNames) ∧
    ("warnings" ∉ validationResponseFields ∧
      "has_async" ∉ validationResponseFields ∧
      "has_caching" ∉ validationResponseFields ∧
      "has_security" ∉ validationResponseFields) := by decide

/-- C3: on a parse failure, validate returns immediately with exactly one
syntax-error diagnostic carrying the failing line, with no further checks
run: the state is the fresh state plus that single error, and the verdict
has empty declaration lists. -/
theorem c3_parse_failure_short_circuit (text : String) (ln : Option Nat)
    (msg : String) (level : Option String) :
    validateState ⟨text, Except.error ⟨ln, msg⟩⟩ level =
      { initState level with errors := [parseFailDiag ln msg] } ∧
    (parseFailDiag ln msg).type = "syntax_error" ∧
    (parseFailDiag ln msg).line = ln ∧
    (validateCode ⟨text, Except.error ⟨ln, msg⟩⟩ level).errors =
      [parseFailDiag ln msg] ∧
    (validateCode ⟨text, Except.error ⟨ln, msg⟩⟩ level).tools_found = [] ∧
    (validateCode ⟨text, Except.error ⟨ln, msg⟩⟩ level).resources_found = [] ∧
    (validateCode ⟨text, Except.error ⟨ln, msg⟩⟩ level).prompts_found = [] :=
  ⟨rfl, rfl, rfl, rfl, rfl, rfl, rfl⟩

/-- C4 (counterexample): a qualifying resource marker whose first positional
argument is a non-literal expression produces no missing-resource-uri error
at all, and a URI repeating one missing template name twice produces two
uri-param-mismatch errors, not one per name. -/
theorem c4_counterexample :
    ((validateState ⟨"", Except.ok resourceNonLiteralTree⟩
        none).resources_found = ["reader"] ∧
      (validateState ⟨"", Except.ok resourceNonLiteralTree⟩ none).errors.filter
        (fun e => e.type == "missing_resource_uri") = []) ∧
    ((validateState ⟨"", Except.ok resourceDupParamTree⟩
        none).resources_found = ["handler"] ∧
      ((validateState ⟨"", Except.ok resourceDupParamTree⟩ none).errors.filter
        (fun e => e.type == "uri_param_mismatch")).length = 2) := by
  decide

/-- C4 (amended): for a function carrying a qualifying resource marker, the
URI diagnostics of the verdict are: one missing-resource-uri error when the
marker carries no positional argument; none at all when the first positional
argument is not a string literal; for a literal, one invalid-resource-uri
error when the scheme separator is absent, and one uri-param-mismatch error
per template-parameter occurrence not matched by a function parameter when
the literal contains both braces. -/
theorem c4_resource_uri_rules (fname : String) (params : List String)
    (doc : String) (ln : Nat) (uriCase : Option (Option String)) :
    ((validateState
        ⟨"", Except.ok
          (resourceFamilyTree fname params doc ln (resourceFamilyArgs uriCase))⟩
        none).resources_found = [fname]) ∧
    ((validateState
        ⟨"", Except.ok
          (resourceFamilyTree fname params doc ln (resourceFamilyArgs uriCase))⟩
        none).errors.filter isResourceUriKind =
      (match uriCase with
       | none => [missingResourceUriError fname ln]
       | some none => []
       | some (some uri) =>
         (if strContains uri ("://") then []
          else [invalidResourceUriError fname ln]) ++
           (if strContains uri ("\x7b") && strContains uri ("\x7d") then
              (findTemplateParams uri.data).flatMap fun p =>
                if params.contains p then []
                else [uriParamMismatchError p fname ln]
            else []))) := by
  rcases uriCase with _ | uc
  · exact ⟨rfl, rfl⟩
  rcases uc with _ | uri
  · exact ⟨rfl, rfl⟩
  constructor
  · rfl
  rw [validateState_ok_eq,
    cls_of_other _ _ _ (by simp [preState]) (by simp [preState])
      (by simp [preState]),
    baseChecks_errors, preState_errors]
  have hdecl : declErrors
      (mcpVarOf (resourceFamilyTree fname params doc ln
        (resourceFamilyArgs (some (some uri)))))
      (resourceFamilyTree fname params doc ln
        (resourceFamilyArgs (some (some uri)))) =
      (resourceErrors fname params ln
        (Py.call (Py.attribute (Py.name ("mcp")) ("resource"))
          [Py.constStr uri]) ++ []) ++ [] := rfl
  rw [List.append_nil, List.append_nil] at hdecl
  have hbase : baseErrDelta
      (preState (resourceFamilyTree fname params doc ln
        (resourceFamilyArgs (some (some uri)))) none) =
      [missingImportError] := rfl
  rw [hdecl, hbase, List.filter_append]
  have hmi : List.filter isResourceUriKind [missingImportError] = [] := rfl
  rw [hmi, List.append_nil]
  show List.filter isResourceUriKind
      ((if strContains uri ("://") then []
        else [invalidResourceUriError fname ln]) ++
        (if strContains uri ("\x7b") && strContains uri ("\x7d") then
          (findTemplateParams uri.data).flatMap fun p =>
            if params.contains p then []
            else [uriParamMismatchError p fname ln]
         else [])) = _
  rw [List.filter_append]
  congr 1
  · split <;> rfl
  · split
    · apply List.filter_eq_self.mpr
      intro e he
      rcases List.mem_flatMap.mp he with ⟨q, _, hq⟩
      split at hq
      · simp at hq
      · simp at hq; subst hq; rfl
    · rfl

/-- C5 (counterexample): with the import present and the constructor call
assigned to an attribute target, no host binding is resolved yet no
missing-instance error is emitted. -/
theorem c5_counterexample :
    (validateState ⟨"", Except.ok attrTargetTree⟩ none).has_fastmcp_import =
      true ∧
    (validateState ⟨"", Except.ok attrTargetTree⟩ none).mcp_var_name = none ∧
    "missing_instance" ∉
      (validateState ⟨"", Except.ok attrTargetTree⟩ none).errors.map
        ValidationError.type := by decide

/-- C5 (amended): for every parseable input and every level, a
missing-instance error is emitted exactly when the framework import was
detected and no qualifying constructor-call assignment was seen, regardless
of whether a simple-name host binding was resolved; in particular none when
the import is missing. -/
theorem c5_missing_instance_iff (text : String) (tree : Py)
    (level : Option String) :
    ("missing_instance" ∈
        (validateState ⟨text, Except.ok tree⟩ level).errors.map
          ValidationError.type) ↔
      ((validateState ⟨text, Except.ok tree⟩ level).has_fastmcp_import = true ∧
        (validateState ⟨text, Except.ok tree⟩ level).has_mcp_instance =
          false) := by
  rw [validateState_ok_eq, baseChecks_errors, cls_errors, baseChecks_ff,
    baseChecks_hmi, cls_ff, cls_hmi]
  have hbase : ("missing_instance" ∈
      (baseErrDelta (checkLevelSpecific (preState tree level) tree text)).map
        ValidationError.type) ↔
      ((preState tree level).has_fastmcp_import = true ∧
        (preState tree level).has_mcp_instance = false) := by
    rw [mem_map_missing_instance_baseErrDelta, cls_ff, cls_hmi]
  simp only [List.map_append, List.mem_append]
  constructor
  · intro hmem
    rcases hmem with (h | h) | h
    · exfalso
      rcases List.mem_map.mp h with ⟨e, he, hte⟩
      have he2 : e ∈ declErrors (mcpVarOf tree) tree := he
      rcases mem_declErrors_type he2 with h1 | h1 | h1 | h1 | h1 <;>
        rw [h1] at hte <;> simp at hte
    · exfalso
      split at h
      · rcases List.mem_map.mp h with ⟨e, he, hte⟩
        rcases mem_level3ErrDelta_type he with h1 | h1 <;> rw [h1] at hte <;>
          simp at hte
      · simp at h
    · exact hbase.mp h
  · intro hc
    exact Or.inr (hbase.mpr hc)

/-- C6 (counterexample): under level2 with no resource declared and no
path-safety idiom in the text, no missing-path-security warning is emitted
and the path-security flag is nevertheless set. -/
theorem c6_counterexample :
    pathSecurityProbe ("") = false ∧
    (validateState emptyUnit (some ("level2"))).resources_found = [] ∧
    "missing_path_security" ∉
      (validateState emptyUnit (some ("level2"))).warnings.map
        ValidationError.type ∧
    (validateState emptyUnit (some ("level2"))).has_path_validation = true := by
  decide

/-- C6 (amended): under level2, the missing-path-security warning is emitted
exactly when at least one resource was found and no path-safety probe idiom
is present in the raw text, and the path-security flag is set exactly when a
probe idiom is satisfied or no resource was found. -/
theorem c6_level2_path_security (text : String) (tree : Py) :
    (("missing_path_security" ∈
        (validateState ⟨text, Except.ok tree⟩ (some ("level2"))).warnings.map
          ValidationError.type) ↔
      ((validateState ⟨text, Except.ok tree⟩
          (some ("level2"))).resources_found ≠ [] ∧
        pathSecurityProbe text = false)) ∧
    ((validateState ⟨text, Except.ok tree⟩
        (some ("level2"))).has_path_validation = true ↔
      (pathSecurityProbe text = true ∨
        (validateState ⟨text, Except.ok tree⟩
          (some ("level2"))).resources_found = [])) := by
  rw [validateState_ok_eq, cls_of_level2 _ _ _ rfl]
  have hdw : ∀ e ∈ declWarnings (mcpVarOf tree) (isL34 (some ("level2"))) tree,
      ¬e.type = "missing_path_security" := by
    intro e he
    rcases mem_declWarnings_type he with h1 | h1 <;> rw [h1] <;> simp
  constructor
  · rw [baseChecks_warnings, checkLevel2_warnings, baseChecks_resources,
      checkLevel2_resources, preState_warnings]
    simp only [List.map_append, List.mem_append]
    constructor
    · intro hmem
      rcases hmem with h | h
      · exfalso
        rcases List.mem_map.mp h with ⟨e, he, hte⟩
        exact hdw e he hte
      · exact (mem_map_mps_level2WarnDelta _ _ _).mp h
    · intro hc
      exact Or.inr ((mem_map_mps_level2WarnDelta _ _ _).mpr hc)
  · rw [baseChecks_hpv, baseChecks_resources, checkLevel2_resources]
    exact checkLevel2_hpv_iff _ _ _ rfl

/-- C7 (counterexample): under level3 with no async-client idiom in the text
and no httpx import, no no-async-client warning is emitted. -/
theorem c7_counterexample :
    asyncClientProbe ("") = false ∧
    "no_async_client" ∉
      (validateState emptyUnit (some ("level3"))).warnings.map
        ValidationError.type := by
  decide

/-- C7 (amended): under level3 and under level4, the no-async-client warning
is emitted exactly when no async-client idiom appears in the raw text and
the httpx import was detected, and the async-client flag is set exactly when
such an idiom appears. -/
theorem c7_async_client (text : String) (tree : Py) :
    ((("no_async_client" ∈
        (validateState ⟨text, Except.ok tree⟩ (some ("level3"))).warnings.map
          ValidationError.type) ↔
      (asyncClientProbe text = false ∧
        (validateState ⟨text, Except.ok tree⟩
          (some ("level3"))).has_httpx_import = true)) ∧
     ((validateState ⟨text, Except.ok tree⟩
        (some ("level3"))).has_async_client = true ↔
      asyncClientProbe text = true)) ∧
    ((("no_async_client" ∈
        (validateState ⟨text, Except.ok tree⟩ (some ("level4"))).warnings.map
          ValidationError.type) ↔
      (asyncClientProbe text = false ∧
        (validateState ⟨text, Except.ok tree⟩
          (some ("level4"))).has_httpx_import = true)) ∧
     ((validateState ⟨text, Except.ok tree⟩
        (some ("level4"))).has_async_client = true ↔
      asyncClientProbe text = true)) := by
  have hdw : ∀ (b : Bool) (e : ValidationError),
      e ∈ declWarnings (mcpVarOf tree) b tree →
        ¬e.type = "no_async_client" := by
    intro b e he
    rcases mem_declWarnings_type he with h1 | h1 <;> rw [h1] <;> simp
  constructor
  · rw [validateState_ok_eq, cls_of_level3 _ _ _ rfl]
    constructor
    · rw [baseChecks_warnings, checkLevel3_warnings, baseChecks_hh,
        checkLevel3_hh, preState_warnings]
      simp only [List.map_append, List.mem_append]
      constructor
      · intro hmem
        rcases hmem with h | h
        · exfalso
          rcases List.mem_map.mp h with ⟨e, he, hte⟩
          exact hdw _ e he hte
        · exact (mem_map_nac_level3WarnDelta _ _ _).mp h
      · intro hc
        exact Or.inr ((mem_map_nac_level3WarnDelta _ _ _).mpr hc)
    · rw [baseChecks_hac, checkLevel3_hac]
      cases hp : asyncClientProbe text <;> simp [hp]
      rfl
  · rw [validateState_ok_eq, cls_of_level4 _ _ _ rfl]
    constructor
    · rw [baseChecks_warnings, checkLevel4_warnings, baseChecks_hh,
        checkLevel4_hh, preState_warnings]
      simp only [List.map_append, List.mem_append]
      have h4own : ∀ e ∈ level4OwnWarnDelta text,
          ¬e.type = "no_async_client" := by
        intro e he
        rcases mem_level4OwnWarnDelta_type he with h1 | h1 | h1 <;> rw [h1] <;>
          simp
      constructor
      · intro hmem
        rcases hmem with (h | h) | h
        · exfalso
          rcases List.mem_map.mp h with ⟨e, he, hte⟩
          exact hdw _ e he hte
        · exfalso
          rcases List.mem_map.mp h with ⟨e, he, hte⟩
          exact h4own e he hte
        · exact (mem_map_nac_level3WarnDelta _ _ _).mp h
      · intro hc
        exact Or.inr ((mem_map_nac_level3WarnDelta _ tree _).mpr hc)
    · rw [baseChecks_hac, checkLevel4_hac]
      cases hp : asyncClientProbe text <;> simp [hp]
      rfl

/-- C8: for a fixed input, every diagnostic kind of the level3 rule pack
that occurs in the level3 verdict also occurs in the level4 verdict, since
level4 re-runs all level3 checks on the same scan state. -/
theorem c8_level_monotonicity (u : SourceUnit) (k : String)
    (_hk : k ∈ level3PackKinds)
    (h3 : k ∈ diagKinds (validateState u (some ("level3")))) :
    k ∈ diagKinds (validateState u (some ("level4"))) := by
  obtain ⟨text, parsed⟩ := u
  cases parsed with
  | error e => exact h3
  | ok tree =>
    rw [validateState_ok_eq, cls_of_level3 _ _ _ rfl] at h3
    rw [validateState_ok_eq, cls_of_level4 _ _ _ rfl]
    unfold diagKinds at h3 ⊢
    rw [baseChecks_errors, baseChecks_warnings, checkLevel3_errors,
      checkLevel3_warnings] at h3
    rw [baseChecks_errors, baseChecks_warnings, checkLevel4_errors,
      checkLevel4_warnings]
    have hE : level3ErrDelta (preState tree (some ("level3"))) tree =
        level3ErrDelta (preState tree (some ("level4"))) tree := rfl
    have hW : level3WarnDelta (preState tree (some ("level3"))) tree text =
        level3WarnDelta (preState tree (some ("level4"))) tree text := rfl
    have hB : baseErrDelta (checkLevel3 (preState tree (some ("level3"))) tree
          text) =
        baseErrDelta (checkLevel4 (preState tree (some ("level4"))) tree
          text) := rfl
    have hP : (preState tree (some ("level3"))).errors =
        (preState tree (some ("level4"))).errors := rfl
    have hPW : (preState tree (some ("level3"))).warnings =
        (preState tree (some ("level4"))).warnings := rfl
    rw [hE, hW, hB, hP, hPW] at h3
    simp only [List.map_append, List.mem_append] at h3 ⊢
    tauto

/-- C8 (witness): the no-caching kind occurs in the level3 verdict of the
empty module, hence also under level4. -/
theorem c8_witness :
    ("no_caching" ∈ level3PackKinds ∧
      "no_caching" ∈ diagKinds (validateState emptyUnit (some ("level3")))) ∧
    "no_caching" ∈ diagKinds (validateState emptyUnit (some ("level4"))) :=
  ⟨⟨by decide, by decide⟩,
    c8_level_monotonicity emptyUnit ("no_caching") (by decide) (by decide)⟩

/-- C9: when the traversal meets several qualifying constructor-call
assignments with simple-name targets, the resolved host binding is the
identifier of the last one encountered; earlier ones are discarded. -/
theorem c9_last_binding_wins (text : String) (tree : Py)
    (level : Option String) (l : List String) (x : String)
    (h : (walk tree).filterMap bindName = l ++ [x]) :
    (validateState ⟨text, Except.ok tree⟩ level).mcp_var_name = some x := by
  rw [validateState_ok_eq, baseChecks_mcp, cls_mcp_var]
  show mcpVarOf tree = some x
  unfold mcpVarOf
  rw [h, List.getLast?_concat]

/-- C9 (witness): with two qualifying bindings, the second one is
resolved. -/
theorem c9_witness :
    (walk twoBindingsTree).filterMap bindName =
      ["first_mcp"] ++ ["second_mcp"] ∧
    (validateState ⟨"", Except.ok twoBindingsTree⟩ none).mcp_var_name =
      some ("second_mcp") :=
  ⟨by decide,
    c9_last_binding_wins ("") twoBindingsTree none ["first_mcp"]
      ("second_mcp") (by decide)⟩

/-- C10: for every input, any level value other than the three recognized
tags produces the same validator state as an unset level, up to the stored
tag itself: no level-pack diagnostics and no feature flags. -/
theorem c10_unknown_level_noop (u : SourceUnit) (level : Option String)
    (h2 : level ≠ some ("level2")) (h3 : level ≠ some ("level3"))
    (h4 : level ≠ some ("level4")) :
    validateState u level = { validateState u none with level := level } := by
  obtain ⟨text, parsed⟩ := u
  cases parsed with
  | error e => rfl
  | ok tree =>
    rw [validateState_ok_eq, validateState_ok_eq]
    have hl : isL34 level = false := by
      unfold isL34
      rw [beq_eq_false_iff_ne.mpr h3, beq_eq_false_iff_ne.mpr h4]
      rfl
    have hpre : preState tree level =
        { preState tree none with level := level } := by
      simp only [preState]
      rw [hl]
      rfl
    rw [hpre]
    rw [cls_of_other _ _ _ (by simpa using h2) (by simpa using h3)
      (by simpa using h4)]
    rw [cls_of_other _ _ _ (by simp [preState]) (by simp [preState])
      (by simp [preState])]
    rfl

/-- C10 (witness): an unrecognized level tag behaves as unset on the empty
module. -/
theorem c10_witness :
    ((some ("level99") : Option String) ≠ some ("level2") ∧
      (some ("level99") : Option String) ≠ some ("level3") ∧
      (some ("level99") : Option String) ≠ some ("level4")) ∧
    validateState emptyUnit (some ("level99")) =
      { validateState emptyUnit none with level := some ("level99") } :=
  ⟨⟨by decide, by decide, by decide⟩,
    c10_unknown_level_noop emptyUnit (some ("level99")) (by decide) (by decide)
      (by decide)⟩

end Inspector
